import Mathlib

/-
Shallow embedding of the round engine of src/streamlit-game-theory.py.

Numbers: Python floats are modelled as real numbers where the ELO
exponential is involved (ratings, expected/actual scores, K-factors) and
as rationals elsewhere (metric values, utilities, payoffs, thresholds),
so that everything without a transcendental stays executable.
Python dicts of metrics are modelled as association lists String × ℚ.
Outcome and strategy labels are the source's exact strings.
-/

/-- One entry of the YAML payoff_matrix: payoff for A, payoff for B, outcome label
(source lines 105-111). -/
structure PayoffOutcome where
  a : ℚ
  b : ℚ
  outcome : String
deriving DecidableEq

/-- payoff_matrix.cooperate_cooperate (source line 106). -/
def cooperate_cooperate : PayoffOutcome := ⟨8, 8, "MATCHED"⟩

/-- payoff_matrix.cooperate_defect (source line 107). -/
def cooperate_defect : PayoffOutcome := ⟨2, 9, "NOT MATCHED"⟩

/-- payoff_matrix.defect_cooperate (source line 108). -/
def defect_cooperate : PayoffOutcome := ⟨9, 2, "NOT MATCHED"⟩

/-- payoff_matrix.defect_defect (source line 109). -/
def defect_defect : PayoffOutcome := ⟨4, 4, "COMPLICATED"⟩

/-- payoff_matrix.mixed_strategy (source line 110). -/
def mixed_strategy : PayoffOutcome := ⟨5, 6, "CONFUSED"⟩

/-- payoff_matrix.asymmetric_investment (source line 111). -/
def asymmetric_investment : PayoffOutcome := ⟨7, 7, "ENGAGED"⟩

/-- calculate_expected_score (source lines 124-126):
1 / (1 + 10 ** ((elo_b - elo_a) / 400)). -/
noncomputable def calculate_expected_score (elo_a elo_b : ℝ) : ℝ :=
  1 / (1 + (10 : ℝ) ^ ((elo_b - elo_a) / 400))

/-- update_elo (source lines 128-130): elo_current + k_factor * (actual - expected).
The source's default k_factor=32 is always overridden by the callers, so the
parameter is explicit here. -/
def update_elo (elo_current expected actual k_factor : ℝ) : ℝ :=
  elo_current + k_factor * (actual - expected)

/-- calculate_actual_score (source lines 146-153): converts payoffs to ELO scores. -/
def calculate_actual_score (payoff_a payoff_b : ℚ) : ℝ × ℝ :=
  if payoff_a > payoff_b then (1.0, 0.0)
  else if payoff_b > payoff_a then (0.0, 1.0)
  else (0.5, 0.5)

/-- calculate_k_factor (source lines 155-165): dynamic K-factor from ELO and
rounds played. -/
noncomputable def calculate_k_factor (elo : ℝ) (rounds_played : ℕ) : ℝ :=
  if rounds_played < 10 then 40
  else if elo < 1400 then 32
  else if elo < 1600 then 24
  else 16

/-- calculate_utility (source lines 168-170): np.mean of the metric values,
i.e. their sum divided by their number. -/
def calculate_utility (metrics : List (String × ℚ)) : ℚ :=
  (metrics.map Prod.snd).sum / ((metrics.map Prod.snd).length : ℚ)

/-- determine_strategy (source lines 172-174). -/
def determine_strategy (utility : ℚ) : String :=
  if utility ≥ 5.5 then "Cooperate" else "Defect"

/-- calculate_payoff (source lines 176-192). -/
def calculate_payoff (strategy_a strategy_b : String) (utility_a utility_b : ℚ) :
    PayoffOutcome :=
  if strategy_a = "Cooperate" ∧ strategy_b = "Cooperate" then cooperate_cooperate
  else if strategy_a = "Cooperate" ∧ strategy_b = "Defect" then cooperate_defect
  else if strategy_a = "Defect" ∧ strategy_b = "Cooperate" then defect_cooperate
  else if strategy_a = "Defect" ∧ strategy_b = "Defect" then defect_defect
  else
    let avg_utility := (utility_a + utility_b) / 2
    if avg_utility ≥ 6.5 then asymmetric_investment
    else mixed_strategy

/-- One element of st.session_state.game_history (round_data, source lines 463-483).
The wall-clock timestamp field is omitted: no claim mentions it and it has no
computational content. -/
structure RoundRecord where
  round : ℕ
  strategy_a : String
  strategy_b : String
  utility_a : ℚ
  utility_b : ℚ
  payoff_a : ℚ
  payoff_b : ℚ
  outcome : String
  game_type : String
  f_score : ℚ
  elo_a : ℝ
  elo_b : ℝ
  new_elo_a : ℝ
  new_elo_b : ℝ
  elo_change_a : ℝ
  elo_change_b : ℝ
  expected_a : ℝ
  actual_a : ℝ

/-- identify_game_type (source lines 194-211). Python history[-5:] is the last
min(5, len) elements, and history[-1] (defined since length ≥ 3 on that path)
is getLast?. The none branch of the match is unreachable there. -/
def identify_game_type (history : List RoundRecord) : String :=
  if history.length < 3 then "Initial Assessment Phase"
  else
    let recent := history.drop (history.length - 5)
    let coop_count :=
      (recent.filter fun h => h.strategy_a == "Cooperate" && h.strategy_b == "Cooperate").length
    match history.getLast? with
    | none => "Initial Assessment Phase"
    | some last_round =>
      if last_round.strategy_a = "Defect" ∧ last_round.strategy_b = "Defect" then
        "Prisoner's Dilemma"
      else if last_round.strategy_a ≠ last_round.strategy_b ∧ coop_count < 2 then
        "Battle of Sexes"
      else if coop_count ≥ 3 then "Stag Hunt (Trust Building)"
      else if history.length > 5 then "Repeated Game"
      else "Chicken Game (Brinkmanship)"

/-- Python dict.get(key, default) on an association list. -/
def dict_get (d : List (String × ℚ)) (key : String) (default : ℚ) : ℚ :=
  match d.find? (fun p => p.fst == key) with
  | some p => p.snd
  | none => default

/-- The prompt_quality sub-factor of calculate_outcome_score (source line 218). -/
def prompt_quality (player_a player_b : List (String × ℚ)) : ℚ :=
  (calculate_utility player_a + calculate_utility player_b) / 2 / 10

/-- The response_authenticity sub-factor of calculate_outcome_score (source line 219). -/
def response_authenticity (player_a player_b : List (String × ℚ)) : ℚ :=
  (dict_get player_a "authenticity_ratio" 5 + dict_get player_b "reciprocity_level" 5) / 2 / 10

/-- The resource_balance sub-factor of calculate_outcome_score (source line 220). -/
def resource_balance (player_a player_b : List (String × ℚ)) : ℚ :=
  1 - |calculate_utility player_a - calculate_utility player_b| / 10

/-- The time_investment sub-factor of calculate_outcome_score (source line 221). -/
def time_investment (player_a player_b : List (String × ℚ)) : ℚ :=
  (dict_get player_a "time_investment" 5 + dict_get player_b "emotional_availability" 5) / 2 / 10

/-- The product forming f in calculate_outcome_score (source line 223). -/
def compat_product (x1 x2 x3 x4 : ℚ) : ℚ := x1 * x2 * x3 * x4

/-- calculate_outcome_score (source lines 213-234): f and the five-band label. -/
def calculate_outcome_score (player_a player_b : List (String × ℚ)) : ℚ × String × String :=
  let f := compat_product (prompt_quality player_a player_b)
    (response_authenticity player_a player_b) (resource_balance player_a player_b)
    (time_investment player_a player_b)
  if f > 0.8 then (f, "MATCHED", "🎉")
  else if f > 0.6 then (f, "ENGAGED", "💍")
  else if f > 0.4 then (f, "COMPLICATED", "⚠️")
  else if f > 0.2 then (f, "CONFUSED", "🤔")
  else (f, "NOT MATCHED", "💔")

/-- st.session_state of the app (source lines 82-93). -/
structure SessionState where
  game_history : List RoundRecord
  round_number : ℕ
  elo_a : ℝ
  elo_b : ℝ
  elo_history_a : List ℝ
  elo_history_b : List ℝ

/-- The initial session state (source lines 82-93). -/
def initial_session : SessionState :=
  { game_history := []
    round_number := 0
    elo_a := 1500
    elo_b := 1500
    elo_history_a := [1500]
    elo_history_b := [1500] }

/-- The Run Simulation Round button handler (source lines 444-494), with the
f_score taken from calculate_outcome_score on the current metric sets as at
source line 427. -/
noncomputable def run_simulation_round (s : SessionState)
    (player_a player_b : List (String × ℚ)) : SessionState :=
  let utility_a := calculate_utility player_a
  let utility_b := calculate_utility player_b
  let strategy_a := determine_strategy utility_a
  let strategy_b := determine_strategy utility_b
  let payoff := calculate_payoff strategy_a strategy_b utility_a utility_b
  let game_type := identify_game_type s.game_history
  let expected_a := calculate_expected_score s.elo_a s.elo_b
  let expected_b := 1 - expected_a
  let actual := calculate_actual_score payoff.a payoff.b
  let k_factor_a := calculate_k_factor s.elo_a s.round_number
  let k_factor_b := calculate_k_factor s.elo_b s.round_number
  let new_elo_a := update_elo s.elo_a expected_a actual.1 k_factor_a
  let new_elo_b := update_elo s.elo_b expected_b actual.2 k_factor_b
  let f_score := (calculate_outcome_score player_a player_b).1
  let round_data : RoundRecord :=
    { round := s.round_number + 1
      strategy_a := strategy_a
      strategy_b := strategy_b
      utility_a := utility_a
      utility_b := utility_b
      payoff_a := payoff.a
      payoff_b := payoff.b
      outcome := payoff.outcome
      game_type := game_type
      f_score := f_score
      elo_a := s.elo_a
      elo_b := s.elo_b
      new_elo_a := new_elo_a
      new_elo_b := new_elo_b
      elo_change_a := new_elo_a - s.elo_a
      elo_change_b := new_elo_b - s.elo_b
      expected_a := expected_a
      actual_a := actual.1 }
  { game_history := s.game_history ++ [round_data]
    round_number := s.round_number + 1
    elo_a := new_elo_a
    elo_b := new_elo_b
    elo_history_a := s.elo_history_a ++ [new_elo_a]
    elo_history_b := s.elo_history_b ++ [new_elo_b] }

/-- The Reset Simulation button handler (source lines 497-504). -/
def reset_simulation (_s : SessionState) : SessionState := initial_session

/-- The Reset ELO Only button handler (source lines 507-512): resets ratings
and rating histories, leaves game_history and round_number untouched. -/
def reset_elo_only (s : SessionState) : SessionState :=
  { s with
    elo_a := 1500
    elo_b := 1500
    elo_history_a := [1500]
    elo_history_b := [1500] }

/-- C4: reset_elo_only sets both ratings to 1500 and both rating histories to
the one-element sequence [1500], while the round records and the round counter
are unchanged; each rating-history length is exactly 1. -/
theorem c4_reset_elo_only_frame (s : SessionState) :
    (reset_elo_only s).elo_a = 1500 ∧ (reset_elo_only s).elo_b = 1500 ∧
    (reset_elo_only s).elo_history_a = [1500] ∧ (reset_elo_only s).elo_history_b = [1500] ∧
    (reset_elo_only s).game_history = s.game_history ∧
    (reset_elo_only s).round_number = s.round_number ∧
    (reset_elo_only s).elo_history_a.length = 1 ∧
    (reset_elo_only s).elo_history_b.length = 1 :=
  ⟨rfl, rfl, rfl, rfl, rfl, rfl, rfl, rfl⟩

/-- C5: determine_strategy returns Cooperate iff the utility is at least 5.5
and Defect iff it is below 5.5; at exactly 5.5 it is Cooperate and at 5.49999
it is Defect. As a Lean function it is pure, total and deterministic. -/
theorem c5_strategy_threshold :
    (∀ u : ℚ, determine_strategy u = "Cooperate" ↔ 5.5 ≤ u) ∧
    (∀ u : ℚ, determine_strategy u = "Defect" ↔ u < 5.5) ∧
    determine_strategy 5.5 = "Cooperate" ∧
    determine_strategy 5.49999 = "Defect" := by
  refine ⟨fun u => ?_, fun u => ?_, ?_, ?_⟩
  · by_cases h : (5.5 : ℚ) ≤ u <;> simp [determine_strategy, h]
  · by_cases h : (5.5 : ℚ) ≤ u <;> simp [determine_strategy, h, lt_iff_not_ge]
  · norm_num [determine_strategy]
  · norm_num [determine_strategy]

/-- C6: the Cooperate/Cooperate and Defect/Defect rows of calculate_payoff are
the fixed entries (8,8,MATCHED) and (4,4,COMPLICATED), independent of both
utility arguments. -/
theorem c6_payoff_fixed_entries (utility_a utility_b : ℚ) :
    calculate_payoff "Cooperate" "Cooperate" utility_a utility_b = ⟨8, 8, "MATCHED"⟩ ∧
    calculate_payoff "Defect" "Defect" utility_a utility_b = ⟨4, 4, "COMPLICATED"⟩ :=
  ⟨rfl, rfl⟩

/-- C10: calculate_actual_score always returns a pair summing to exactly 1:
(1,0) when payoff_a is strictly greater, (0,1) when payoff_b is strictly
greater, (0.5,0.5) on equality. -/
theorem c10_actual_score_sum (payoff_a payoff_b : ℚ) :
    (calculate_actual_score payoff_a payoff_b).1 +
      (calculate_actual_score payoff_a payoff_b).2 = 1 ∧
    (payoff_b < payoff_a → calculate_actual_score payoff_a payoff_b = (1.0, 0.0)) ∧
    (payoff_a < payoff_b → calculate_actual_score payoff_a payoff_b = (0.0, 1.0)) ∧
    (payoff_a = payoff_b → calculate_actual_score payoff_a payoff_b = (0.5, 0.5)) := by
  unfold calculate_actual_score
  rcases lt_trichotomy payoff_a payoff_b with h | h | h
  · rw [if_neg (by exact not_lt_of_gt h), if_pos h]
    refine ⟨by norm_num, fun h2 => absurd h (not_lt_of_gt h2), fun _ => rfl,
      fun h2 => absurd h (by simp [h2])⟩
  · rw [if_neg (by simp [h]), if_neg (by simp [h])]
    refine ⟨by norm_num, fun h2 => absurd h2 (by simp [h]), fun h2 => absurd h2 (by simp [h]),
      fun _ => rfl⟩
  · rw [if_pos h]
    refine ⟨by norm_num, fun _ => rfl, fun h2 => absurd h2 (not_lt_of_gt h), fun h2 => by
      exact absurd h (by simp [h2])⟩

/-- Witness for C10 at the concrete payoff pair (9,2). -/
theorem c10_actual_score_sum_witness :
    (calculate_actual_score 9 2).1 + (calculate_actual_score 9 2).2 = 1 ∧
    calculate_actual_score 9 2 = (1.0, 0.0) :=
  ⟨(c10_actual_score_sum 9 2).1, (c10_actual_score_sum 9 2).2.1 (by norm_num)⟩

/-- C3 (code behavior at the failing input): calculate_utility applies no
validation at all — for the out-of-range metric set with the single value 15
it returns the plain numeric mean 15 instead of failing with a validation
error. -/
theorem c3_utility_no_validation :
    calculate_utility [("vulnerability_level", 15)] = 15 := by
  norm_num [calculate_utility]

/-- The ELO exponential at equal ratings is 1, so the expected score is 1/2. -/
lemma expected_score_self (r : ℝ) : calculate_expected_score r r = 1 / 2 := by
  unfold calculate_expected_score
  rw [sub_self, zero_div, Real.rpow_zero]
  norm_num

/-- The two opposite ELO exponentials multiply to 1. -/
lemma expected_score_mul (a b : ℝ) :
    (10 : ℝ) ^ ((b - a) / 400) * (10 : ℝ) ^ ((a - b) / 400) = 1 := by
  rw [← Real.rpow_add (by norm_num : (0 : ℝ) < 10)]
  have h : (b - a) / 400 + (a - b) / 400 = 0 := by ring
  rw [h, Real.rpow_zero]

/-- C7: calculate_expected_score is 0.5 at equal ratings, and the two
orderings of any rating pair have expected scores summing exactly to 1. -/
theorem c7_expected_score_identities :
    (∀ r : ℝ, calculate_expected_score r r = 0.5) ∧
    (∀ a b : ℝ, calculate_expected_score a b + calculate_expected_score b a = 1) := by
  constructor
  · intro r
    rw [expected_score_self]
    norm_num
  · intro a b
    unfold calculate_expected_score
    have h1 : (0 : ℝ) < (10 : ℝ) ^ ((b - a) / 400) := Real.rpow_pos_of_pos (by norm_num) _
    have h2 : (0 : ℝ) < (10 : ℝ) ^ ((a - b) / 400) := Real.rpow_pos_of_pos (by norm_num) _
    have h3 := expected_score_mul a b
    have hne1 : 1 + (10 : ℝ) ^ ((b - a) / 400) ≠ 0 := by positivity
    have hne2 : 1 + (10 : ℝ) ^ ((a - b) / 400) ≠ 0 := by positivity
    field_simp
    nlinarith [h3]

/-- C8: in the Run Simulation Round composition (expected_b = 1 - expected_a,
per-party K-factors from the shared round counter), the rating update is
zero-sum whenever the two K-factors agree and the actual scores sum to 1 with
no draw: the change of rating A is the exact negative of the change of
rating B. -/
theorem c8_rating_update_zero_sum (elo_a elo_b : ℝ) (n : ℕ) (payoff_a payoff_b : ℚ)
    (hk : calculate_k_factor elo_a n = calculate_k_factor elo_b n)
    (hsum : (calculate_actual_score payoff_a payoff_b).1 +
      (calculate_actual_score payoff_a payoff_b).2 = 1)
    (_hnodraw : (calculate_actual_score payoff_a payoff_b).1 = 0 ∨
      (calculate_actual_score payoff_a payoff_b).1 = 1) :
    update_elo elo_a (calculate_expected_score elo_a elo_b)
        (calculate_actual_score payoff_a payoff_b).1 (calculate_k_factor elo_a n) - elo_a =
      -(update_elo elo_b (1 - calculate_expected_score elo_a elo_b)
        (calculate_actual_score payoff_a payoff_b).2 (calculate_k_factor elo_b n) - elo_b) := by
  have hb : (calculate_actual_score payoff_a payoff_b).2 =
      1 - (calculate_actual_score payoff_a payoff_b).1 := by linarith
  simp only [update_elo, hk, hb]
  ring

/-- Witness for C8: both parties at rating 1500, round counter 0 (so k = 40
on each side), payoffs 9 and 2. -/
theorem c8_rating_update_zero_sum_witness :
    update_elo 1500 (calculate_expected_score 1500 1500)
        (calculate_actual_score 9 2).1 (calculate_k_factor 1500 0) - 1500 =
      -(update_elo 1500 (1 - calculate_expected_score 1500 1500)
        (calculate_actual_score 9 2).2 (calculate_k_factor 1500 0) - 1500) :=
  c8_rating_update_zero_sum 1500 1500 0 9 2 rfl
    (by norm_num [calculate_actual_score])
    (Or.inr (by norm_num [calculate_actual_score]))

/-- A concrete mutual-defection round record used as test data. -/
def dd_record : RoundRecord :=
  { round := 1
    strategy_a := "Defect"
    strategy_b := "Defect"
    utility_a := 2
    utility_b := 2
    payoff_a := 4
    payoff_b := 4
    outcome := "COMPLICATED"
    game_type := "Initial Assessment Phase"
    f_score := 0
    elo_a := 1500
    elo_b := 1500
    new_elo_a := 1500
    new_elo_b := 1500
    elo_change_a := 0
    elo_change_b := 0
    expected_a := 0.5
    actual_a := 0.5 }

/-- C2 counterexample: a one-round history whose only (hence last) round is
Defect/Defect is classified "Initial Assessment Phase", not the Prisoner's
Dilemma label, because the length check comes first. -/
theorem c2_short_history_counterexample :
    dd_record.strategy_a = "Defect" ∧ dd_record.strategy_b = "Defect" ∧
    identify_game_type [dd_record] = "Initial Assessment Phase" ∧
    identify_game_type [dd_record] ≠ "Prisoner's Dilemma" :=
  ⟨rfl, rfl, rfl, by decide⟩

/-- C2 amended: for every history of length at least 3 whose last round has
both strategies Defect, identify_game_type returns the Prisoner's Dilemma
label, regardless of the older rounds. -/
theorem c2_last_round_defect_defect (l : List RoundRecord) (r : RoundRecord)
    (ha : r.strategy_a = "Defect") (hb : r.strategy_b = "Defect")
    (hlen : 3 ≤ (l ++ [r]).length) :
    identify_game_type (l ++ [r]) = "Prisoner's Dilemma" := by
  simp only [identify_game_type, List.getLast?_concat]
  rw [if_neg (by omega)]
  rw [if_pos ⟨ha, hb⟩]

/-- Witness for C2 amended: a three-round history ending in Defect/Defect. -/
theorem c2_last_round_defect_defect_witness :
    identify_game_type ([dd_record, dd_record] ++ [dd_record]) = "Prisoner's Dilemma" :=
  c2_last_round_defect_defect [dd_record, dd_record] dd_record rfl rfl (by simp)

/-- C9: the f returned by calculate_outcome_score is exactly the product of
the four sub-factors, and that product is monotonically non-decreasing in each
factor slot when the other three are held fixed at non-negative values. -/
theorem c9_compatibility_monotone :
    (∀ player_a player_b : List (String × ℚ),
      (calculate_outcome_score player_a player_b).1 =
        compat_product (prompt_quality player_a player_b)
          (response_authenticity player_a player_b)
          (resource_balance player_a player_b) (time_investment player_a player_b)) ∧
    (∀ x x' a b c : ℚ, 0 ≤ a → 0 ≤ b → 0 ≤ c → x ≤ x' →
      compat_product x a b c ≤ compat_product x' a b c) ∧
    (∀ x x' a b c : ℚ, 0 ≤ a → 0 ≤ b → 0 ≤ c → x ≤ x' →
      compat_product a x b c ≤ compat_product a x' b c) ∧
    (∀ x x' a b c : ℚ, 0 ≤ a → 0 ≤ b → 0 ≤ c → x ≤ x' →
      compat_product a b x c ≤ compat_product a b x' c) ∧
    (∀ x x' a b c : ℚ, 0 ≤ a → 0 ≤ b → 0 ≤ c → x ≤ x' →
      compat_product a b c x ≤ compat_product a b c x') := by
  constructor
  · intro player_a player_b
    simp only [calculate_outcome_score]
    split_ifs <;> rfl
  refine ⟨?_, ?_, ?_, ?_⟩ <;>
    (intro x x' a b c ha hb hc hx
     unfold compat_product
     nlinarith [mul_le_mul_of_nonneg_right hx (mul_nonneg (mul_nonneg ha hb) hc)])

/-- Witness for C9: the product identity at empty metric sets and each
monotonicity slot instantiated at concrete sub-factor values. -/
theorem c9_compatibility_monotone_witness :
    (calculate_outcome_score [] []).1 =
      compat_product (prompt_quality [] []) (response_authenticity [] [])
        (resource_balance [] []) (time_investment [] []) ∧
    compat_product 0 1 1 1 ≤ compat_product 1 1 1 1 ∧
    compat_product 1 0 1 1 ≤ compat_product 1 1 1 1 ∧
    compat_product 1 1 0 1 ≤ compat_product 1 1 1 1 ∧
    compat_product 1 1 1 0 ≤ compat_product 1 1 1 1 :=
  ⟨c9_compatibility_monotone.1 [] [],
   c9_compatibility_monotone.2.1 0 1 1 1 1 (by norm_num) (by norm_num) (by norm_num) (by norm_num),
   c9_compatibility_monotone.2.2.1 0 1 1 1 1 (by norm_num) (by norm_num) (by norm_num)
     (by norm_num),
   c9_compatibility_monotone.2.2.2.1 0 1 1 1 1 (by norm_num) (by norm_num) (by norm_num)
     (by norm_num),
   c9_compatibility_monotone.2.2.2.2 0 1 1 1 1 (by norm_num) (by norm_num) (by norm_num)
     (by norm_num)⟩

/-- Player A metric set whose seven slider values all equal 2, so the utility
mean is 2 (keys as at source lines 388-396). -/
def metrics_a_c1 : List (String × ℚ) :=
  [("prompt_frequency", 2), ("message_depth", 2), ("vulnerability_level", 2),
   ("time_investment", 2), ("financial_gestures", 2), ("authenticity_ratio", 2),
   ("network_introduction", 2)]

/-- Player B metric set whose seven slider values all equal 9, so the utility
mean is 9 (keys as at source lines 408-416). -/
def metrics_b_c1 : List (String × ℚ) :=
  [("prompt_frequency", 9), ("message_depth", 9), ("vulnerability_level", 9),
   ("emotional_availability", 9), ("lifestyle_inclusion", 9), ("cultural_sharing", 9),
   ("reciprocity_level", 9)]

/-- Evaluation of the round of C1: with both ratings 1500 and round counter 0,
metrics averaging 2 versus 9 give the defect_cooperate payoff (9,2), and since
payoff A is the strictly greater one, party A scores actual 1.0 and ends at
rating 1520 while party B ends at 1480. -/
lemma c1_round_eval :
    (run_simulation_round initial_session metrics_a_c1 metrics_b_c1).elo_a = 1520 ∧
    (run_simulation_round initial_session metrics_a_c1 metrics_b_c1).elo_b = 1480 := by
  have hu_a : calculate_utility metrics_a_c1 = 2 := by norm_num [calculate_utility, metrics_a_c1]
  have hu_b : calculate_utility metrics_b_c1 = 9 := by norm_num [calculate_utility, metrics_b_c1]
  have hs_a : determine_strategy 2 = "Defect" := by norm_num [determine_strategy]
  have hs_b : determine_strategy 9 = "Cooperate" := by norm_num [determine_strategy]
  have hp : calculate_payoff "Defect" "Cooperate" 2 9 = defect_cooperate := rfl
  have hact : calculate_actual_score 9 2 = (1.0, 0.0) := by norm_num [calculate_actual_score]
  have hexp : calculate_expected_score 1500 1500 = 1 / 2 := expected_score_self 1500
  have hk : calculate_k_factor 1500 0 = 40 := by norm_num [calculate_k_factor]
  constructor <;>
    (dsimp only [run_simulation_round, initial_session]
     rw [hu_a, hu_b, hs_a, hs_b, hp]
     simp only [defect_cooperate]
     rw [hact]
     dsimp only
     rw [hexp, hk]
     norm_num [update_elo])

/-- C1 counterexample: at the claim's own input (metrics averaging 2 versus 9,
both ratings 1500, round counter 0 so k = 40) the payoff is the
defect_cooperate entry (9,2), hence the actual scores are (1.0, 0.0) — not
(0.0, 1.0) — and the new ratings are (1520, 1480) — not (1480, 1520). -/
theorem c1_round_counterexample :
    calculate_payoff "Defect" "Cooperate" 2 9 = defect_cooperate ∧
    calculate_actual_score defect_cooperate.a defect_cooperate.b = (1.0, 0.0) ∧
    ((1.0 : ℝ), (0.0 : ℝ)) ≠ ((0.0 : ℝ), (1.0 : ℝ)) ∧
    (run_simulation_round initial_session metrics_a_c1 metrics_b_c1).elo_a = 1520 ∧
    (1520 : ℝ) ≠ 1480 ∧
    (run_simulation_round initial_session metrics_a_c1 metrics_b_c1).elo_b = 1480 ∧
    (1480 : ℝ) ≠ 1520 :=
  ⟨rfl, by norm_num [calculate_actual_score, defect_cooperate], by norm_num,
   c1_round_eval.1, by norm_num, c1_round_eval.2, by norm_num⟩

/-- C1 amended: for the round where party A metrics average 2 (Defect) and
party B metrics average 9 (Cooperate), both ratings 1500 and round counter
below 10 (k = 40), the payoff lookup yields (9,2) from defect_cooperate, the
actual scores are actualA = 1.0 and actualB = 0.0 (A has the strictly higher
payoff), expectedA = 0.5, and the new ratings are newRatingA = 1520 and
newRatingB = 1480. -/
theorem c1_defect_cooperate_round :
    calculate_utility metrics_a_c1 = 2 ∧
    determine_strategy (calculate_utility metrics_a_c1) = "Defect" ∧
    calculate_utility metrics_b_c1 = 9 ∧
    determine_strategy (calculate_utility metrics_b_c1) = "Cooperate" ∧
    calculate_payoff "Defect" "Cooperate" 2 9 = defect_cooperate ∧
    defect_cooperate = ⟨9, 2, "NOT MATCHED"⟩ ∧
    calculate_actual_score 9 2 = (1.0, 0.0) ∧
    calculate_expected_score 1500 1500 = 0.5 ∧
    calculate_k_factor 1500 0 = 40 ∧
    (run_simulation_round initial_session metrics_a_c1 metrics_b_c1).elo_a = 1520 ∧
    (run_simulation_round initial_session metrics_a_c1 metrics_b_c1).elo_b = 1480 := by
  have hu_a : calculate_utility metrics_a_c1 = 2 := by norm_num [calculate_utility, metrics_a_c1]
  have hu_b : calculate_utility metrics_b_c1 = 9 := by norm_num [calculate_utility, metrics_b_c1]
  refine ⟨hu_a, ?_, hu_b, ?_, rfl, rfl, ?_, ?_, ?_, c1_round_eval.1, c1_round_eval.2⟩
  · rw [hu_a]; norm_num [determine_strategy]
  · rw [hu_b]; norm_num [determine_strategy]
  · norm_num [calculate_actual_score]
  · rw [expected_score_self]; norm_num
  · norm_num [calculate_k_factor]
